import Mathlib

/-!
Shallow embedding of `libs/graphicsenv/GraphicsEnv.cpp` (Android
`frameworks/native`): the process-local policy manager that decides whether
an application should use the ANGLE alternate graphics implementation, and
that lazily builds isolated linker namespaces for the vendor driver.

External collaborators (the dynamic loader, the ANGLE feature-support
module, `android-base` file reads, system properties) are modelled as
explicit environment records; the control flow of each function in the
source file is translated statement by statement.
-/

namespace GraphicsEnvModel

/-- Characters trimmed by `android::base::Trim` (standard C whitespace). -/
def isSpaceChar (c : Char) : Bool :=
  c = ' ' || c = '\t' || c = '\n' || c = '\r' || c = '\x0b' || c = '\x0c'

/-- Model of `android::base::Trim`: strip leading and trailing whitespace. -/
def trim (s : String) : String :=
  String.mk (((s.data.dropWhile isSpaceChar).reverse.dropWhile isSpaceChar).reverse)

/-- Scanner of `android::base::Split`: walk the characters, emitting the
accumulated field at each delimiter and the final field at the end, so a
trailing delimiter yields a trailing empty field, as in the C++ code. -/
def splitNewlinesAux : List Char → List Char → List String
  | [], acc => [String.mk acc.reverse]
  | c :: rest, acc =>
      if c = '\n' then String.mk acc.reverse :: splitNewlinesAux rest []
      else splitNewlinesAux rest (c :: acc)

/-- Model of `android::base::Split(fileContent, "\n")`: split on newlines,
keeping empty fields. -/
def splitLines (s : String) : List String :=
  splitNewlinesAux s.data []

/-- `readConfig` (GraphicsEnv.cpp:97): read the config file, split its
content on newlines, trim each line, and keep the non-empty lines.
`none` models `base::ReadFileToString` failing (function returns false);
`some content` models a successful read of `content`. -/
def readConfig (fileContent : Option String) : Option (List String) :=
  match fileContent with
  | none => none
  | some content =>
      some (((splitLines content).map trim).filter (fun l => !l.isEmpty))

/-- The opt-in/out feature-support module temporarily loaded by
`updateUseAngle`, as seen through `dlsym` and its seven version-2 entry
points. `has*` fields say whether `dlsym` finds each symbol; `*Ok` fields
give the boolean each entry point returns; `negotiatedVersion` is the value
the version-negotiation entry point writes into `versionToUse` on success;
`shouldBeUsed` is the verdict of `ANGLEShouldBeUsedForApplication`. -/
structure AngleModule where
  hasGetVersion : Bool
  getVersionOk : Bool
  negotiatedVersion : Nat
  hasParseRules : Bool
  hasGetSystemInfo : Bool
  hasAddDeviceInfo : Bool
  hasShouldBeUsed : Bool
  hasFreeRules : Bool
  hasFreeSystemInfo : Bool
  parseRulesOk : Bool
  getSystemInfoOk : Bool
  addDeviceInfoOk : Bool
  shouldBeUsed : Bool
  deriving Repr, DecidableEq

/-- Result of one `checkAngleRules` run: the returned boolean plus how many
times each rule-evaluation entry point of the module was invoked. -/
structure CheckResult where
  useAngle : Bool
  parseCalls : Nat
  getSystemInfoCalls : Nat
  addDeviceInfoCalls : Nat
  shouldBeUsedCalls : Nat
  freeRulesCalls : Nat
  freeSystemInfoCalls : Nat
  deriving Repr, DecidableEq

/-- A `CheckResult` in which no rule-evaluation entry point was invoked. -/
def noCalls (b : Bool) : CheckResult :=
  ⟨b, 0, 0, 0, 0, 0, 0⟩

/-- `GraphicsEnv::checkAngleRules` (GraphicsEnv.cpp:176): negotiate the API
version with the feature-support module; in the version-2 case resolve the
six further entry points (any missing one breaks out), then parse the rules,
obtain system info, add device info (each failure breaks out of the switch
immediately), evaluate the application, and free both handles. The
translation mirrors the `break` statements of the C++ `switch`: a `break`
after a failed step skips everything below it, including the two frees. -/
def checkAngleRules (so : AngleModule) : CheckResult :=
  if !so.hasGetVersion then noCalls false
  else if !so.getVersionOk then noCalls false
  else if so.negotiatedVersion = 2 then
    if !so.hasParseRules then noCalls false
    else if !so.hasGetSystemInfo then noCalls false
    else if !so.hasAddDeviceInfo then noCalls false
    else if !so.hasShouldBeUsed then noCalls false
    else if !so.hasFreeRules then noCalls false
    else if !so.hasFreeSystemInfo then noCalls false
    else if !so.parseRulesOk then ⟨false, 1, 0, 0, 0, 0, 0⟩
    else if !so.getSystemInfoOk then ⟨false, 1, 1, 0, 0, 0, 0⟩
    else if !so.addDeviceInfoOk then ⟨false, 1, 1, 1, 0, 0, 0⟩
    else ⟨so.shouldBeUsed, 1, 1, 1, 1, 1, 1⟩
  else noCalls false

/-- Environment for `updateUseAngle`: the `debug.angle.enable` property
(`atoi(prop) != 0`), whether `loadLibrary("feature_support")` succeeds, and
the loaded module's behaviour. -/
structure AngleEnv where
  debugAngleEnable : Bool
  featureSoLoads : Bool
  featureModule : AngleModule
  deriving Repr, DecidableEq

/-- Result of one `updateUseAngle` run: the cached decision, whether the
feature-support module was loaded, and (when `checkAngleRules` ran) its
call trace. -/
structure UpdateResult where
  useAngle : Bool
  moduleLoaded : Bool
  check : Option CheckResult
  deriving Repr, DecidableEq

/-- `GraphicsEnv::updateUseAngle` (GraphicsEnv.cpp:272): "angle" forces
true, "native" forces false, both without loading the module; otherwise the
module is loaded (when enabled and loadable) and `checkAngleRules` decides,
else the decision stays false. -/
def updateUseAngle (env : AngleEnv) (developerOptIn : String) : UpdateResult :=
  if developerOptIn = "angle" then ⟨true, false, none⟩
  else if developerOptIn = "native" then ⟨false, false, none⟩
  else if env.debugAngleEnable && env.featureSoLoads then
    let r := checkAngleRules env.featureModule
    ⟨r.useAngle, true, some r⟩
  else ⟨false, false, none⟩

/-- The mutable fields of the `GraphicsEnv` singleton that the claims
touch. Opaque pointers are modelled as `Nat` with `0` for `nullptr`. -/
structure GState where
  mDriverPath : String
  mAnglePath : String
  mAngleAppName : String
  mAngleDeveloperOptIn : String
  mRulesBuffer : List Nat
  mUseAngle : Bool
  mLayerPaths : String
  mAppNamespace : Nat
  mDriverNamespace : Nat
  driverNamespaceLatched : Bool
  deriving Repr, DecidableEq

/-- The freshly constructed singleton: empty strings, null pointers, the
driver-namespace `std::once_flag` not yet fired. -/
def initState : GState :=
  ⟨"", "", "", "", [], false, "", 0, 0, false⟩

/-- `GraphicsEnv::setDriverPath` (GraphicsEnv.cpp:146): first non-empty
write wins; once `mDriverPath` is non-empty, later calls are ignored. -/
def setDriverPath (st : GState) (path : String) : GState :=
  if st.mDriverPath ≠ "" then st
  else { st with mDriverPath := path }

/-- `GraphicsEnv::setLayerPaths` (GraphicsEnv.cpp:338): when `mLayerPaths`
is empty, store both the layer paths and the namespace pointer; otherwise
ignore the call. -/
def setLayerPaths (st : GState) (appNamespace : Nat) (layerPaths : String) : GState :=
  if st.mLayerPaths = "" then
    { st with mLayerPaths := layerPaths, mAppNamespace := appNamespace }
  else st

/-- The rules buffer built by `setAngleInfo` (GraphicsEnv.cpp:318):
`mRulesBuffer = std::vector<char>(rulesLength + 1)` (zero-initialised),
`read` deposits `numBytesRead` bytes at the front (`0` on a failed read),
and `mRulesBuffer[numBytesRead] = 0`. `avail` is the byte sequence the
descriptor offers at `rulesOffset`; `readFails` models `read` returning a
negative count. -/
def rulesBufferAfterRead (avail : List Nat) (readFails : Bool) (rulesLength : Nat) :
    List Nat :=
  let d := if readFails then [] else avail.take rulesLength
  d ++ List.replicate (rulesLength + 1 - d.length) 0

/-- `GraphicsEnv::setAngleInfo` (GraphicsEnv.cpp:308): unconditionally
store the path, app name and developer opt-in, capture the rules buffer,
then run `updateUseAngle` and cache its decision. -/
def setAngleInfo (env : AngleEnv) (st : GState) (path appName developerOptIn : String)
    (avail : List Nat) (readFails : Bool) (rulesLength : Nat) : GState :=
  { st with
    mAnglePath := path
    mAngleAppName := appName
    mAngleDeveloperOptIn := developerOptIn
    mRulesBuffer := rulesBufferAfterRead avail readFails rulesLength
    mUseAngle := (updateUseAngle env developerOptIn).useAngle }

/-- `GraphicsEnv::shouldUseAngle()` (GraphicsEnv.cpp:262): false with a
diagnostic when not configured, else the cached decision. -/
def shouldUseAngle (st : GState) : Bool :=
  if st.mAngleAppName = "" then false
  else st.mUseAngle

/-- `GraphicsEnv::shouldUseAngle(appName)` (GraphicsEnv.cpp:251): fail
closed on an app-name mismatch, else defer to the no-argument overload. -/
def shouldUseAngleApp (st : GState) (appName : String) : Bool :=
  if appName ≠ st.mAngleAppName then false
  else shouldUseAngle st

/-- Environment for the driver-namespace build: whether
`android_get_exported_namespace("vndk")` finds a namespace, the pointer
`android_create_namespace` returns, the joined LLNDK and VNDK-SP library
name lists from `getSystemNativeLibraries` (empty string when the config
file is missing/unreadable or lists no names), and the outcomes of the two
`android_link_namespaces` calls. -/
structure DriverBuildEnv where
  vndkNamespaceFound : Bool
  createdNamespace : Nat
  llndkLibraries : String
  linkDefaultOk : Bool
  vndkspLibraries : String
  linkVndkOk : Bool
  deriving Repr, DecidableEq

/-- Body of the `std::call_once` lambda in `GraphicsEnv::getDriverNamespace`
(GraphicsEnv.cpp:378): early returns leave `mDriverNamespace` untouched;
every post-creation failure resets it to null. Returns the new value of
`mDriverNamespace`. -/
def driverNamespaceOnceBody (env : DriverBuildEnv) (driverPath : String)
    (cur : Nat) : Nat :=
  if driverPath = "" then cur
  else if !env.vndkNamespaceFound then cur
  else
    let created := env.createdNamespace
    if env.llndkLibraries = "" then 0
    else if !env.linkDefaultOk then 0
    else if env.vndkspLibraries = "" then 0
    else if !env.linkVndkOk then 0
    else created

/-- `GraphicsEnv::getDriverNamespace` (GraphicsEnv.cpp:376): the build body
runs at most once (`std::once_flag`); every call returns the cached
`mDriverNamespace` (`0` = null = absent domain). -/
def getDriverNamespace (env : DriverBuildEnv) (st : GState) : Nat × GState :=
  if st.driverNamespaceLatched then (st.mDriverNamespace, st)
  else
    let ns := driverNamespaceOnceBody env st.mDriverPath st.mDriverNamespace
    (ns, { st with mDriverNamespace := ns, driverNamespaceLatched := true })

/-- Any failed step in `checkAngleRules` leaves the returned decision
false; only the full version-2 success path can return the module's
verdict. -/
lemma checkAngleRules_useAngle_false (so : AngleModule)
    (h : so.hasGetVersion = false ∨ so.getVersionOk = false
      ∨ so.hasParseRules = false ∨ so.hasGetSystemInfo = false
      ∨ so.hasAddDeviceInfo = false ∨ so.hasShouldBeUsed = false
      ∨ so.hasFreeRules = false ∨ so.hasFreeSystemInfo = false
      ∨ so.negotiatedVersion ≠ 2) :
    (checkAngleRules so).useAngle = false := by
  unfold checkAngleRules
  rcases h with h | h | h | h | h | h | h | h | h <;> simp [h, noCalls]

/-- When version negotiation fails or yields a version other than 2,
`checkAngleRules` returns without invoking any rule-evaluation entry
point. -/
lemma checkAngleRules_no_calls (so : AngleModule)
    (h : so.getVersionOk = false ∨ so.negotiatedVersion ≠ 2) :
    checkAngleRules so = noCalls false := by
  unfold checkAngleRules
  rcases h with h | h <;> simp [h]

/-- An `AngleEnv` in which the feature-support module neither is enabled
nor loads, used for concrete evaluations. -/
def quietAngleEnv : AngleEnv :=
  ⟨false, false, ⟨true, true, 2, true, true, true, true, true, true, true, true, true, true⟩⟩

/-- C1: the claim says a second `setAngleInfo` leaves a non-empty
`mAnglePath` unchanged; in fact `setAngleInfo` assigns `mAnglePath`
unconditionally, so after setting it to `"a"` a later call with `"b"`
changes it to `"b"`. -/
theorem setAngleInfo_second_write_cex :
    (setAngleInfo quietAngleEnv
        (setAngleInfo quietAngleEnv initState "a" "app" "" [] false 0)
        "b" "app" "" [] false 0).mAnglePath = "b"
    ∧ (setAngleInfo quietAngleEnv
        (setAngleInfo quietAngleEnv initState "a" "app" "" [] false 0)
        "b" "app" "" [] false 0).mAnglePath ≠ "a" := by
  decide

/-- C1 (amended): every `setAngleInfo` call overwrites `mAnglePath` with
its `path` argument — last write wins, with no first-write-wins guard. -/
theorem setAngleInfo_path_last_write (env : AngleEnv) (st : GState)
    (path appName developerOptIn : String) (avail : List Nat) (readFails : Bool)
    (rulesLength : Nat) :
    (setAngleInfo env st path appName developerOptIn avail readFails
        rulesLength).mAnglePath = path :=
  rfl

/-- A feature-support module whose rule parsing and system-info steps
succeed (both opaque handles are obtained) but whose add-device-info step
fails. -/
def leakModule : AngleModule :=
  ⟨true, true, 2, true, true, true, true, true, true, true, true, false, true⟩

/-- C2: on the version-2 path where both the rules handle and the
system-info handle are obtained (`parseCalls = 1`, `getSystemInfoCalls = 1`
with both steps succeeding) but add-device-info fails, `checkAngleRules`
breaks out of the switch without invoking either free entry point: both
free counts are `0`, not `1`. The claimed handle hygiene fails on this
path. -/
theorem checkAngleRules_leak_on_addDeviceInfo_failure :
    (checkAngleRules leakModule).parseCalls = 1
    ∧ (checkAngleRules leakModule).getSystemInfoCalls = 1
    ∧ (checkAngleRules leakModule).freeRulesCalls = 0
    ∧ (checkAngleRules leakModule).freeSystemInfoCalls = 0 := by
  decide

/-- C3: requesting a 100-byte rules read from a descriptor offering only
40 bytes yields a buffer of `rulesLength + 1 = 101` bytes (the
`std::vector<char>(rulesLength + 1)` allocation), not the claimed 41. -/
theorem setAngleInfo_rules_buffer_length_cex :
    (setAngleInfo quietAngleEnv initState "p" "app" ""
        (List.replicate 40 65) false 100).mRulesBuffer.length = 101
    ∧ (setAngleInfo quietAngleEnv initState "p" "app" ""
        (List.replicate 40 65) false 100).mRulesBuffer.length ≠ 41 := by
  decide

/-- C3 (amended): for any requested `rulesLength` and any short or failed
read, the rules buffer has `rulesLength + 1` bytes: the bytes actually read
(none on a failed read) as a prefix, followed by NUL bytes starting exactly
at the index equal to the number of bytes read; and configuration proceeds
to the decision evaluation (`mUseAngle` is set from `updateUseAngle`). -/
theorem setAngleInfo_rules_read (env : AngleEnv) (st : GState)
    (path appName developerOptIn : String) (avail : List Nat) (readFails : Bool)
    (rulesLength : Nat) :
    (setAngleInfo env st path appName developerOptIn avail readFails
        rulesLength).mRulesBuffer = rulesBufferAfterRead avail readFails rulesLength
    ∧ (rulesBufferAfterRead avail readFails rulesLength).length = rulesLength + 1
    ∧ (rulesBufferAfterRead avail readFails rulesLength).take
          (if readFails then 0 else min rulesLength avail.length)
        = (if readFails then [] else avail.take rulesLength)
    ∧ (rulesBufferAfterRead avail readFails rulesLength).drop
          (if readFails then 0 else min rulesLength avail.length)
        = List.replicate
            (rulesLength + 1 - (if readFails then 0 else min rulesLength avail.length)) 0
    ∧ (if readFails then 0 else min rulesLength avail.length) < rulesLength + 1
    ∧ (setAngleInfo env st path appName developerOptIn avail readFails
          rulesLength).mUseAngle = (updateUseAngle env developerOptIn).useAngle := by
  refine ⟨rfl, ?_, ?_, ?_, ?_, rfl⟩ <;>
    cases readFails <;>
      simp [rulesBufferAfterRead, List.take_left', List.drop_left',
        List.length_take]

/-- C4: for every rules-blob content and every policy-module state,
`setAngleInfo` with developer opt-in `"angle"` caches the decision `true`
and with `"native"` caches `false`, and in both cases `updateUseAngle`
never loads the policy module. -/
theorem updateUseAngle_developer_override (env : AngleEnv) (st : GState)
    (path appName : String) (avail : List Nat) (readFails : Bool)
    (rulesLength : Nat) :
    (setAngleInfo env st path appName "angle" avail readFails
        rulesLength).mUseAngle = true
    ∧ (updateUseAngle env "angle").moduleLoaded = false
    ∧ (setAngleInfo env st path appName "native" avail readFails
        rulesLength).mUseAngle = false
    ∧ (updateUseAngle env "native").moduleLoaded = false :=
  ⟨rfl, rfl, rfl, rfl⟩

/-- C5: with the developer override unset, every failure — enablement flag
disabled, module load failure, version-negotiation entry point absent or
failing, any version-2 entry point missing, or an unsupported negotiated
version — leaves the cached decision `false`; and when negotiation fails or
the version is unsupported, no rule-evaluation entry point is invoked. -/
theorem updateUseAngle_failure_paths (env : AngleEnv) (optIn : String)
    (hA : optIn ≠ "angle") (hN : optIn ≠ "native") :
    ((env.debugAngleEnable = false ∨ env.featureSoLoads = false
        ∨ env.featureModule.hasGetVersion = false
        ∨ env.featureModule.getVersionOk = false
        ∨ env.featureModule.hasParseRules = false
        ∨ env.featureModule.hasGetSystemInfo = false
        ∨ env.featureModule.hasAddDeviceInfo = false
        ∨ env.featureModule.hasShouldBeUsed = false
        ∨ env.featureModule.hasFreeRules = false
        ∨ env.featureModule.hasFreeSystemInfo = false
        ∨ env.featureModule.negotiatedVersion ≠ 2) →
      (updateUseAngle env optIn).useAngle = false)
    ∧ ((env.featureModule.getVersionOk = false
        ∨ env.featureModule.negotiatedVersion ≠ 2) →
      ((updateUseAngle env optIn).check = none
        ∨ (updateUseAngle env optIn).check = some (noCalls false))) := by
  unfold updateUseAngle
  rw [if_neg hA, if_neg hN]
  constructor
  · intro h
    by_cases hl : env.debugAngleEnable && env.featureSoLoads
    · rw [if_pos hl]
      show (checkAngleRules env.featureModule).useAngle = false
      rcases h with h | h | h
      · rw [h] at hl; simp at hl
      · rw [h] at hl; simp at hl
      · exact checkAngleRules_useAngle_false env.featureModule h
    · rw [if_neg hl]
  · intro h
    by_cases hl : env.debugAngleEnable && env.featureSoLoads
    · rw [if_pos hl]
      right
      show some (checkAngleRules env.featureModule) = some (noCalls false)
      rw [checkAngleRules_no_calls env.featureModule h]
    · rw [if_neg hl]
      left
      rfl

/-- Witness for C5: a concrete environment in which the version-negotiation
entry point reports failure yields decision `false` with no rule-evaluation
entry point invoked. -/
theorem updateUseAngle_failure_paths_witness :
    (updateUseAngle
        ⟨true, true, ⟨true, false, 2, true, true, true, true, true, true,
          true, true, true, true⟩⟩ "").useAngle = false
    ∧ ((updateUseAngle
        ⟨true, true, ⟨true, false, 2, true, true, true, true, true, true,
          true, true, true, true⟩⟩ "").check = none
      ∨ (updateUseAngle
        ⟨true, true, ⟨true, false, 2, true, true, true, true, true, true,
          true, true, true, true⟩⟩ "").check = some (noCalls false)) := by
  have h := updateUseAngle_failure_paths
    ⟨true, true, ⟨true, false, 2, true, true, true, true, true, true,
      true, true, true, true⟩⟩ "" (by decide) (by decide)
  exact ⟨h.1 (by decide), h.2 (by decide)⟩

/-- C6: after configuring for app `Y`, querying `shouldUseAngle` for any
other name `X` returns `false`, whatever the cached decision value is. -/
theorem shouldUseAngleApp_mismatch (st : GState) (appName : String) (b : Bool)
    (h : appName ≠ st.mAngleAppName) :
    shouldUseAngleApp { st with mUseAngle := b } appName = false := by
  simp [shouldUseAngleApp, h]

/-- Witness for C6: querying for `"X"` after configuring for `"Y"` returns
`false` even though the cached decision is `true`. -/
theorem shouldUseAngleApp_mismatch_witness :
    shouldUseAngleApp
      { initState with mAngleAppName := "Y", mUseAngle := true } "X" = false :=
  shouldUseAngleApp_mismatch { initState with mAngleAppName := "Y" } "X" true
    (by decide)

/-- Any failed precondition of the driver-namespace build leaves
`mDriverNamespace` null (`0`): early returns keep the initial null, and
post-creation failures reset it to null. -/
lemma driverNamespaceOnceBody_absent (env : DriverBuildEnv) (driverPath : String)
    (h : driverPath = "" ∨ env.vndkNamespaceFound = false
      ∨ env.llndkLibraries = "" ∨ env.linkDefaultOk = false
      ∨ env.vndkspLibraries = "" ∨ env.linkVndkOk = false) :
    driverNamespaceOnceBody env driverPath 0 = 0 := by
  unfold driverNamespaceOnceBody
  rcases h with h | h | h | h | h | h <;> simp [h]

/-- C7: if at the first `getDriverNamespace` call the driver path is empty,
the exported vndk namespace is absent, either library name list is empty,
or either namespace-link step fails, then the call returns the null domain
and every later call — under any environment — returns null as well: the
absence is latched by the once-flag, and a latched call also leaves the
state unchanged, so the same holds for all subsequent calls. -/
theorem getDriverNamespace_failure_terminal (env env2 : DriverBuildEnv)
    (st : GState) (hl : st.driverNamespaceLatched = false)
    (hn : st.mDriverNamespace = 0)
    (h : st.mDriverPath = "" ∨ env.vndkNamespaceFound = false
      ∨ env.llndkLibraries = "" ∨ env.linkDefaultOk = false
      ∨ env.vndkspLibraries = "" ∨ env.linkVndkOk = false) :
    (getDriverNamespace env st).1 = 0
    ∧ (getDriverNamespace env2 (getDriverNamespace env st).2).1 = 0
    ∧ (getDriverNamespace env2 (getDriverNamespace env st).2).2
        = (getDriverNamespace env st).2 := by
  have hb := driverNamespaceOnceBody_absent env st.mDriverPath h
  simp [getDriverNamespace, hl, hn, hb]

/-- Witness for C7: with the vndk namespace absent (and an empty driver
path) the first call returns null, and a second call returns null even
under an environment in which every build step would succeed. -/
theorem getDriverNamespace_failure_terminal_witness :
    (getDriverNamespace ⟨false, 7, "x", true, "y", true⟩ initState).1 = 0
    ∧ (getDriverNamespace ⟨true, 7, "x", true, "y", true⟩
        (getDriverNamespace ⟨false, 7, "x", true, "y", true⟩ initState).2).1
      = 0
    ∧ (getDriverNamespace ⟨true, 7, "x", true, "y", true⟩
        (getDriverNamespace ⟨false, 7, "x", true, "y", true⟩ initState).2).2
      = (getDriverNamespace ⟨false, 7, "x", true, "y", true⟩ initState).2 :=
  getDriverNamespace_failure_terminal ⟨false, 7, "x", true, "y", true⟩
    ⟨true, 7, "x", true, "y", true⟩ initState rfl rfl (by decide)

/-- C8: starting from the fresh singleton, setting the driver path to a
non-empty `p1` and then to any `p2` leaves the stored path `p1`. -/
theorem setDriverPath_first_write_wins (p1 p2 : String) (h : p1 ≠ "") :
    (setDriverPath (setDriverPath initState p1) p2).mDriverPath = p1 := by
  simp [setDriverPath, initState, h]

/-- Witness for C8 at `p1 = "a"`, `p2 = "b"`. -/
theorem setDriverPath_first_write_wins_witness :
    ("a" : String) ≠ ""
    ∧ (setDriverPath (setDriverPath initState "a") "b").mDriverPath = "a" :=
  ⟨by decide, setDriverPath_first_write_wins "a" "b" (by decide)⟩

/-- C9: the config content `"a\n\nb \n c\n"` parses to `["a", "b", "c"]` —
split on newlines, lines trimmed, empty lines dropped. -/
theorem readConfig_parses_example :
    readConfig (some "a\n\nb \n c\n") = some ["a", "b", "c"] := by
  decide

/-- C10: the `setLayerPaths` guard is keyed solely on `mLayerPaths` being
non-empty: a call with empty paths still overwrites the stored namespace
pointer and leaves the guard unlatched, a subsequent call can still replace
both fields, and the first call with non-empty paths makes both fields
permanent. -/
theorem setLayerPaths_guard (st : GState) (ns1 ns2 ns3 : Nat) (p2 p3 : String)
    (h : st.mLayerPaths = "") :
    ((setLayerPaths st ns1 "").mLayerPaths = ""
      ∧ (setLayerPaths st ns1 "").mAppNamespace = ns1)
    ∧ ((setLayerPaths (setLayerPaths st ns1 "") ns2 p2).mLayerPaths = p2
      ∧ (setLayerPaths (setLayerPaths st ns1 "") ns2 p2).mAppNamespace = ns2)
    ∧ (p2 ≠ "" →
        setLayerPaths (setLayerPaths st ns2 p2) ns3 p3
          = setLayerPaths st ns2 p2) := by
  refine ⟨⟨?_, ?_⟩, ⟨?_, ?_⟩, ?_⟩
  · simp [setLayerPaths, h]
  · simp [setLayerPaths, h]
  · simp [setLayerPaths, h]
  · simp [setLayerPaths, h]
  · intro hp
    simp [setLayerPaths, h, hp]

/-- Witness for C10: from the fresh singleton, a first non-empty write
latches both fields, and an empty first write still stores the namespace
pointer while leaving the paths replaceable. -/
theorem setLayerPaths_guard_witness :
    setLayerPaths (setLayerPaths initState 2 "p") 3 "q"
      = setLayerPaths initState 2 "p"
    ∧ (setLayerPaths (setLayerPaths initState 1 "") 2 "p").mLayerPaths = "p"
    ∧ (setLayerPaths initState 1 "").mAppNamespace = 1 :=
  ⟨(setLayerPaths_guard initState 1 2 3 "p" "q" rfl).2.2 (by decide),
   (setLayerPaths_guard initState 1 2 3 "p" "q" rfl).2.1.1,
   (setLayerPaths_guard initState 1 2 3 "p" "q" rfl).1.2⟩

end GraphicsEnvModel
